import Mathlib

set_option maxHeartbeats 1000000

/-!
Shallow embedding of the openclaw-cloudflare R2 synchronization module.

The repository contains three evolutionary drafts of the same module; the
definitions below embed the final versions: `mountR2Storage` / `probeMount` /
`lazyUnmountR2` / `isMountPathInUseError` (gateway/r2), `waitForProcess`
(gateway/utils) and `syncToR2` with its helpers (gateway/sync).

Modelling decisions:
- An external sandbox process is a `ProcBehavior`: its lag-prone `status`
  field is a stream `Nat → String` indexed by the number of poll sleeps
  performed so far inside the wait that observes it (reads separated by no
  sleep see the same value, matching single-threaded JS), plus the captured
  `stdout` / `stderr` the orchestrator eventually reads and an optional
  numeric `exitCode`.
- Every externally visible action (starting a process, calling the mount
  primitive, attempting an unmount, listing processes, killing a process) is
  recorded in an explicit trace, so "zero copy-pass processes started" and
  ordering claims are statable.
- JS string operations (`includes`, `startsWith`, `trim`, `||`, the
  `/^\d{4}-\d{2}-\d{2}/` test) are implemented over the character list of
  the string.
- `JSON.stringify` escaping inside free-text diagnostic strings is abstracted
  to simple quoting; no claim depends on those diagnostic payloads.
-/

/-- Helper for JS `includes` / `startsWith`: does the second list begin with
the first one? -/
def leadsWith : List Char → List Char → Bool
  | [], _ => true
  | _ :: _, [] => false
  | p :: ps, c :: cs => p == c && leadsWith ps cs

/-- Helper for JS `includes`: does the pattern occur anywhere in the list? -/
def hasSubL (pat : List Char) : List Char → Bool
  | [] => leadsWith pat []
  | c :: cs => leadsWith pat (c :: cs) || hasSubL pat cs

/-- Models JS `s.includes(pat)`. -/
def strContains (s pat : String) : Bool := hasSubL pat.data s.data

/-- Models JS `s.startsWith(pat)`. -/
def strStartsWith (s pat : String) : Bool := leadsWith pat.data s.data

/-- Drop leading and trailing whitespace from a character list. -/
def trimL (l : List Char) : List Char :=
  ((l.dropWhile Char.isWhitespace).reverse.dropWhile Char.isWhitespace).reverse

/-- Models JS `s.trim()`. -/
def jsTrim (s : String) : String := ⟨trimL s.data⟩

/-- Models the r2 probe's `(logs.stdout || '').trim().split(/\s+/)[0] || ''`:
the first whitespace-delimited token of the trimmed output, or `""`. -/
def firstToken (s : String) : String :=
  ⟨(trimL s.data).takeWhile (fun c => !c.isWhitespace)⟩

/-- Models JS `a || b` on strings (empty string is falsy). -/
def jsOr (a b : String) : String := if a == "" then b else a

/-- Models `[..].filter(Boolean).join('\n')` on strings. -/
def joinNonEmpty (xs : List String) : String :=
  String.intercalate "\n" (xs.filter (fun x => !(x == "")))

/-- Models the completion-marker test `/^\d{4}-\d{2}-\d{2}/.test(s)`:
four digits, dash, two digits, dash, two digits at the start of the string. -/
def isDateLike (s : String) : Bool :=
  match s.data with
  | c0 :: c1 :: c2 :: c3 :: c4 :: c5 :: c6 :: c7 :: c8 :: c9 :: _ =>
    c0.isDigit && c1.isDigit && c2.isDigit && c3.isDigit && c4 == '-' &&
    c5.isDigit && c6.isDigit && c7 == '-' && c8.isDigit && c9.isDigit
  | _ => false

/-- The statuses `waitForProcess` treats as "still active"
(`proc.status === 'starting' || proc.status === 'running'`). -/
def isActive (s : String) : Bool := s == "starting" || s == "running"

/-- `Math.ceil(timeoutMs / pollIntervalMs)` from `waitForProcess`, for a
positive poll interval (every call site passes 200, 500 or the 500 default;
the JS code would loop forever on a zero interval while this model exits
immediately, a divergence outside every call site). -/
def waitMaxAttempts (timeoutMs pollIntervalMs : Nat) : Nat :=
  (timeoutMs + pollIntervalMs - 1) / pollIntervalMs

/-- The polling loop of `waitForProcess`: starting with `attempts = a` and
`fuel` remaining attempts, sleep-and-re-observe while the status is active;
returns the final value of `attempts`, which is also the index of the last
observation and the total number of poll sleeps performed. -/
def waitFrom (status : Nat → String) : Nat → Nat → Nat
  | 0, a => a
  | fuel + 1, a => if isActive (status a) then waitFrom status fuel (a + 1) else a

/-- Index (= number of sleeps) at which the wait loop exits. -/
def waitExitT (status : Nat → String) (timeoutMs pollIntervalMs : Nat) : Nat :=
  waitFrom status (waitMaxAttempts timeoutMs pollIntervalMs) 0

/-- The message of the error thrown on timeout:
`Process timed out after ${timeoutMs}ms (status=${proc.status})`. -/
def timeoutMessage (timeoutMs : Nat) (st : String) : String :=
  "Process timed out after " ++ toString timeoutMs ++ "ms (status=" ++ st ++ ")"

/-- `waitForProcess` from gateway/utils, instrumented with the number of poll
sleeps performed: polls while the status is in {starting, running}, then
throws a timeout error iff the status is still active at loop exit. -/
def waitForProcessT (status : Nat → String) (timeoutMs pollIntervalMs : Nat) :
    Except String Unit × Nat :=
  let t := waitExitT status timeoutMs pollIntervalMs
  if isActive (status t) then
    (Except.error (timeoutMessage timeoutMs (status t)), t)
  else (Except.ok (), t)

/-- `waitForProcess` proper: just the settle/throw outcome. -/
def waitForProcess (status : Nat → String) (timeoutMs pollIntervalMs : Nat) :
    Except String Unit :=
  (waitForProcessT status timeoutMs pollIntervalMs).1

/-- Behavior of one external sandbox process as observed by this module. -/
structure ProcBehavior where
  status : Nat → String
  exitCode : Option Int := none
  stdout : String := ""
  stderr : String := ""

/-- The `MountProbe` tagged variant from gateway/r2. -/
inductive MountProbe where
  | mounted (fsType : String)
  | not_mounted (fsType : String)
  | unresponsive
deriving DecidableEq, Repr

/-- The three probe states with the fsType payload forgotten. -/
inductive PTag where
  | mounted
  | notMounted
  | unresponsive
deriving DecidableEq, Repr

/-- Tag of a probe result. -/
def MountProbe.tag : MountProbe → PTag
  | .mounted _ => .mounted
  | .not_mounted _ => .notMounted
  | .unresponsive => .unresponsive

/-- The bounded wait `waitForProcess(proc, 5000, 200)` issued by `probeMount`. -/
def probeWait (p : ProcBehavior) : Except String Unit :=
  waitForProcess p.status 5000 200

/-- `probeMount` from gateway/r2: a timed-out wait is `unresponsive`; else the
first token of the stat output classifies the path (empty / `__ERR__` means
not mounted, a `fuse`-family type means mounted, anything else means some
other filesystem occupies the path). -/
def probeMount (p : ProcBehavior) : MountProbe :=
  match probeWait p with
  | .error _ => .unresponsive
  | .ok _ =>
    let fsType := firstToken p.stdout
    if fsType == "" || fsType == "__ERR__" then .not_mounted (jsOr fsType "__ERR__")
    else if strStartsWith fsType "fuse" then .mounted fsType
    else .not_mounted fsType

/-- `isMountPathInUseError` from gateway/r2. -/
def isMountPathInUseError (errorMessage : String) : Bool :=
  strContains errorMessage "InvalidMountConfigError" &&
  strContains errorMessage "Mount path" &&
  strContains errorMessage "already in use"

/-- Externally visible actions of the mount controller.  A probe records the
state it reported; `unmountAttempt` is the best-effort `lazyUnmountR2` call
(whose own wait result is ignored by the source); `mountCall` is a
`sandbox.mountBucket` invocation. -/
inductive R2Action where
  | probe (result : PTag)
  | unmountAttempt
  | mountCall
deriving DecidableEq, Repr

/-- Environment of one `mountR2Storage` execution: credential presence, the
behavior of the stat process behind each probe, and the outcome of each
`mountBucket` call (`none` = success, `some msg` = throws with message). -/
structure R2Env where
  hasAccessKeyId : Bool
  hasSecretAccessKey : Bool
  hasAccountId : Bool
  initialProbeProc : ProcBehavior
  mount1 : Option String
  reprobeProc : ProcBehavior
  mount2 : Option String

/-- The credential gate shared by `mountR2Storage` and `syncToR2`. -/
def r2CredsOk (env : R2Env) : Bool :=
  env.hasAccessKeyId && env.hasSecretAccessKey && env.hasAccountId

/-- `mountR2Storage` from gateway/r2 (final draft), returning its result and
the trace of probe / unmount / mount actions it performed, in order. -/
def mountR2Storage (env : R2Env) : Bool × List R2Action :=
  if !r2CredsOk env then (false, [])
  else
    match probeMount env.initialProbeProc with
    | .mounted _ => (true, [R2Action.probe PTag.mounted])
    | _ =>
      let tr0 : List R2Action :=
        if (probeMount env.initialProbeProc).tag == PTag.unresponsive then
          [R2Action.probe PTag.unresponsive, R2Action.unmountAttempt]
        else
          [R2Action.probe (probeMount env.initialProbeProc).tag]
      let tr1 := tr0 ++ [R2Action.mountCall]
      match env.mount1 with
      | none => (true, tr1)
      | some msg =>
        if isMountPathInUseError msg then
          let rp := probeMount env.reprobeProc
          let tr2 := tr1 ++ [R2Action.probe rp.tag]
          match rp with
          | .mounted _ => (true, tr2)
          | .unresponsive =>
            let tr3 := tr2 ++ [R2Action.unmountAttempt, R2Action.mountCall]
            match env.mount2 with
            | none => (true, tr3)
            | some _ => (false, tr3)
          | .not_mounted _ => (false, tr2)
        else (false, tr1)

/-- `SyncResult` from gateway/sync. -/
structure SyncResult where
  success : Bool
  lastSync : Option String := none
  error : Option String := none
  details : Option String := none
deriving DecidableEq, Repr

/-- The three replication stages, in their declared order. -/
inductive SyncStage where
  | openclaw
  | workspace
  | skills
deriving DecidableEq, Repr

/-- Position of a stage in the declared total order. -/
def stageIdx : SyncStage → Nat
  | .openclaw => 0
  | .workspace => 1
  | .skills => 2

/-- The `which` label `syncToR2` passes to `ensureRsyncSuccess`. -/
def stageName : SyncStage → String
  | .openclaw => "openclaw"
  | .workspace => "workspace"
  | .skills => "skills"

/-- Kind of each process `syncToR2` starts. -/
inductive ProcKind where
  | verify
  | rsync (stage : SyncStage)
  | writeMarker
  | readMarker
  | diag
deriving DecidableEq, Repr

/-- Externally visible events of one `syncToR2` execution. -/
inductive SyncEv where
  | r2 (a : R2Action)
  | listProc
  | start (k : ProcKind)
  | kill (reason : String)
deriving DecidableEq, Repr

/-- One entry of `sandbox.listProcesses()` as read by `checkForActiveRsync`. -/
structure ProcInfo where
  status : String
  command : String
  id : Option String

/-- The mount path constant.  Modelled from the spec: the `config` module that
defines `R2_MOUNT_PATH` is not part of the provided sources; the spec only
calls it "the target mount path", and no claim depends on its exact value, so
a representative path is fixed here. -/
def R2_MOUNT_PATH : String := "/mnt/r2"

/-- The predicate of `checkForActiveRsync`'s `processes.find(...)`: active
status and a command referencing both rsync and the mount path. -/
def rsyncActiveMatch (p : ProcInfo) : Bool :=
  (p.status == "starting" || p.status == "running") &&
  strContains p.command "rsync" && strContains p.command R2_MOUNT_PATH

/-- `checkForActiveRsync` from gateway/sync: `none` when no matching active
process is found (also when `listProcesses` itself fails, modelled by a
`none` process list), `some details` when one is. -/
def checkForActiveRsync (ps : Option (List ProcInfo)) : Option String :=
  match ps with
  | none => none
  | some l =>
    match l.find? rsyncActiveMatch with
    | none => none
    | some p =>
      some ("Skipped: another rsync appears to be running" ++
        (match p.id with
         | some i => if i == "" then "" else " (id=" ++ i ++ ")"
         | none => "") ++ ".")

/-- `DEFAULT_SYNC_TIMEOUT_MS` from gateway/sync. -/
def DEFAULT_SYNC_TIMEOUT_MS : Nat := 600000

/-- The wait `syncToR2` performs on each rsync stage process. -/
def rsyncWait (p : ProcBehavior) : Except String Unit :=
  waitForProcess p.status DEFAULT_SYNC_TIMEOUT_MS 500

/-- The status `ensureRsyncSuccess` observes: the process status at the tick
at which the stage's wait exited (all post-wait reads happen with no further
poll sleep in between). -/
def statusAfterRsyncWait (p : ProcBehavior) : String :=
  p.status (waitExitT p.status DEFAULT_SYNC_TIMEOUT_MS 500)

/-- `ensureRsyncSuccess` from gateway/sync: fires (returns a `Sync failed`
result) iff the observed status is `failed` or a numeric exit code is present
and non-zero; its details are stderr, else stdout, else a fallback line. -/
def rsyncFailCond (p : ProcBehavior) : Bool :=
  statusAfterRsyncWait p == "failed" ||
  (match p.exitCode with
   | some c => c != 0
   | none => false)

def ensureRsyncSuccess (p : ProcBehavior) (which : String) : Option SyncResult :=
  if rsyncFailCond p then
    some { success := false
           error := some "Sync failed"
           details := some (jsTrim (jsOr p.stderr (jsOr p.stdout
             ("rsync failed (" ++ which ++ ") exitCode=" ++
               (match p.exitCode with | some c => toString c | none => "unknown"))))) }
  else none

/-- Environment of one `syncToR2` execution. -/
structure SyncEnv where
  hasAccessKeyId : Bool
  hasSecretAccessKey : Bool
  hasAccountId : Bool
  r2Env : R2Env
  processList : Option (List ProcInfo)
  verifyProc : ProcBehavior
  openclawProc : ProcBehavior
  workspaceProc : ProcBehavior
  skillsProc : ProcBehavior
  writeProc : ProcBehavior
  readProc : ProcBehavior
  diagProc : ProcBehavior

/-- The process behind each replication stage. -/
def stageProcOf (env : SyncEnv) : SyncStage → ProcBehavior
  | .openclaw => env.openclawProc
  | .workspace => env.workspaceProc
  | .skills => env.skillsProc

/-- The result built by the orchestrator's outer catch: a replication-stage
timeout (rethrown after the best-effort kill) or any other thrown condition. -/
def syncErrorResult (msg : String) : SyncResult :=
  { success := false, error := some "Sync error", details := some msg }

/-- The 15-second wait on the marker write / marker read processes. -/
def markerWait (p : ProcBehavior) : Except String Unit :=
  waitForProcess p.status 15000 500

/-- Details of the `Sync failed` result of the marker-verification fallback:
first rsync stage's stderr-else-stdout-else-fallback, then the trimmed
diagnostic snapshot output. -/
def markerFailDetails (env : SyncEnv) : String :=
  joinNonEmpty
    [ jsOr env.openclawProc.stderr (jsOr env.openclawProc.stdout "No timestamp file created")
    , jsTrim env.diagProc.stdout
    , jsTrim env.diagProc.stderr ]

/-- The replication / marker phase of `syncToR2` (the big `try` block after
preflight verification succeeded), with the trace of events it adds (traces
are written out literally rather than accumulated, to keep the definition a
plain match tree). -/
def runStages (env : SyncEnv) : SyncResult × List SyncEv :=
  match rsyncWait env.openclawProc with
  | .error m =>
    (syncErrorResult m,
     [SyncEv.start (ProcKind.rsync SyncStage.openclaw), SyncEv.kill "rsync_openclaw_timeout"])
  | .ok _ =>
  match ensureRsyncSuccess env.openclawProc "openclaw" with
  | some r => (r, [SyncEv.start (ProcKind.rsync SyncStage.openclaw)])
  | none =>
  match rsyncWait env.workspaceProc with
  | .error m =>
    (syncErrorResult m,
     [SyncEv.start (ProcKind.rsync SyncStage.openclaw),
      SyncEv.start (ProcKind.rsync SyncStage.workspace), SyncEv.kill "rsync_workspace_timeout"])
  | .ok _ =>
  match ensureRsyncSuccess env.workspaceProc "workspace" with
  | some r =>
    (r, [SyncEv.start (ProcKind.rsync SyncStage.openclaw),
         SyncEv.start (ProcKind.rsync SyncStage.workspace)])
  | none =>
  match rsyncWait env.skillsProc with
  | .error m =>
    (syncErrorResult m,
     [SyncEv.start (ProcKind.rsync SyncStage.openclaw),
      SyncEv.start (ProcKind.rsync SyncStage.workspace),
      SyncEv.start (ProcKind.rsync SyncStage.skills), SyncEv.kill "rsync_skills_timeout"])
  | .ok _ =>
  match ensureRsyncSuccess env.skillsProc "skills" with
  | some r =>
    (r, [SyncEv.start (ProcKind.rsync SyncStage.openclaw),
         SyncEv.start (ProcKind.rsync SyncStage.workspace),
         SyncEv.start (ProcKind.rsync SyncStage.skills)])
  | none =>
  match markerWait env.writeProc with
  | .error m =>
    (syncErrorResult m,
     [SyncEv.start (ProcKind.rsync SyncStage.openclaw),
      SyncEv.start (ProcKind.rsync SyncStage.workspace),
      SyncEv.start (ProcKind.rsync SyncStage.skills), SyncEv.start ProcKind.writeMarker])
  | .ok _ =>
  match markerWait env.readProc with
  | .error m =>
    (syncErrorResult m,
     [SyncEv.start (ProcKind.rsync SyncStage.openclaw),
      SyncEv.start (ProcKind.rsync SyncStage.workspace),
      SyncEv.start (ProcKind.rsync SyncStage.skills), SyncEv.start ProcKind.writeMarker,
      SyncEv.start ProcKind.readMarker])
  | .ok _ =>
  if (!(jsTrim env.readProc.stdout == "") && !(jsTrim env.readProc.stdout == "__MISSING__")) &&
      isDateLike (jsTrim env.readProc.stdout) then
    ({ success := true, lastSync := some (jsTrim env.readProc.stdout) },
     [SyncEv.start (ProcKind.rsync SyncStage.openclaw),
      SyncEv.start (ProcKind.rsync SyncStage.workspace),
      SyncEv.start (ProcKind.rsync SyncStage.skills), SyncEv.start ProcKind.writeMarker,
      SyncEv.start ProcKind.readMarker])
  else
    ({ success := false, error := some "Sync failed", details := some (markerFailDetails env) },
     [SyncEv.start (ProcKind.rsync SyncStage.openclaw),
      SyncEv.start (ProcKind.rsync SyncStage.workspace),
      SyncEv.start (ProcKind.rsync SyncStage.skills), SyncEv.start ProcKind.writeMarker,
      SyncEv.start ProcKind.readMarker, SyncEv.start ProcKind.diag])

/-- The credential gate at the top of `syncToR2`. -/
def syncCredsOk (env : SyncEnv) : Bool :=
  env.hasAccessKeyId && env.hasSecretAccessKey && env.hasAccountId

/-- The result of the missing-`openclaw.json` preflight abort. -/
def missingConfigResult : SyncResult :=
  { success := false
    error := some "Sync aborted: source missing openclaw.json"
    details := some ("The local config directory is missing critical files. " ++
      "This could indicate corruption or an incomplete setup.") }

/-- The result of the workspace-emptiness-asymmetry preflight abort. -/
def workspaceEmptyResult : SyncResult :=
  { success := false
    error := some "Sync aborted: local workspace appears empty"
    details := some ("The workspace directory is empty, but an existing workspace backup was found in R2. " ++
      "Aborting to avoid overwriting memory/bootstrap files with an empty workspace.") }

/-- The verify-process status read when building the verification-timeout
message (read after the verify wait, with no further sleep modelled). -/
def verifyStatusAtEnd (env : SyncEnv) : String :=
  env.verifyProc.status (waitExitT env.verifyProc.status 10000 200)

/-- Stand-in for `JSON.stringify` on a short string (escaping abstracted). -/
def quoteStr (s : String) : String := "\"" ++ s ++ "\""

/-- The result of the verification branch's thrown-and-caught timeout (no
recognizable sentinel in the verify output). -/
def verifyTimeoutResult (env : SyncEnv) : SyncResult :=
  { success := false
    error := some "Failed to verify source files"
    details := some ("Timed out waiting for source verification output (status=" ++
      verifyStatusAtEnd env ++ "). stdout=" ++ quoteStr (jsTrim env.verifyProc.stdout) ++
      " stderr=" ++ quoteStr (jsTrim env.verifyProc.stderr)) }

/-- The trace accumulated by the time preflight verification has been
started: the mount controller's actions, the `listProcesses` call, and the
verify process start. -/
def preTrace (env : SyncEnv) : List SyncEv :=
  (mountR2Storage env.r2Env).2.map SyncEv.r2 ++ [SyncEv.listProc, SyncEv.start ProcKind.verify]

/-- `syncToR2` from gateway/sync (final draft): credential gate, mount, dedup
check, preflight verification, then the staged replication and marker
verification of `runStages`; paired with the full event trace. -/
def syncToR2 (env : SyncEnv) : SyncResult × List SyncEv :=
  if !syncCredsOk env then
    ({ success := false, error := some "R2 storage is not configured" }, [])
  else if !(mountR2Storage env.r2Env).1 then
    ({ success := false, error := some "Failed to mount R2 storage" },
     (mountR2Storage env.r2Env).2.map SyncEv.r2)
  else
    match checkForActiveRsync env.processList with
    | some d =>
      ({ success := true, details := some d },
       (mountR2Storage env.r2Env).2.map SyncEv.r2 ++ [SyncEv.listProc])
    | none =>
      if strContains env.verifyProc.stdout "__MISSING__" then
        (missingConfigResult, preTrace env)
      else if strContains env.verifyProc.stdout "__WORKSPACE_REMOTE_NONEMPTY__" &&
          strContains env.verifyProc.stdout "__WORKSPACE_LOCAL_EMPTY__" then
        (workspaceEmptyResult, preTrace env)
      else if !(strContains env.verifyProc.stdout "__OK__") then
        (verifyTimeoutResult env, preTrace env)
      else
        ((runStages env).1, preTrace env ++ (runStages env).2)

/-- Index assigned to a trace event by `stageSeq`: replication stages are
0,1,2 and the completion-marker write is 3; other events are dropped. -/
def stageEvIdx : SyncEv → Option Nat
  | SyncEv.start (ProcKind.rsync s) => some (stageIdx s)
  | SyncEv.start ProcKind.writeMarker => some 3
  | _ => none

/-- The sequence of replication stages (0,1,2) and the marker write (3)
started during a run, in trace order. -/
def stageSeq (tr : List SyncEv) : List Nat :=
  tr.filterMap stageEvIdx

/-- Did the wait on a replication-stage process settle and its ensure-success
check pass?  This is the condition gating the next stage. -/
def stagePassed (env : SyncEnv) (s : SyncStage) : Prop :=
  rsyncWait (stageProcOf env s) = Except.ok () ∧
  ensureRsyncSuccess (stageProcOf env s) (stageName s) = none

/-- Did the probe's bounded wait time out? -/
def probeTimedOut (p : ProcBehavior) : Bool :=
  match probeWait p with
  | .error _ => true
  | .ok _ => false

/-- Number of `mountBucket` calls in a mount-controller trace. -/
def countMountCalls : List R2Action → Nat
  | [] => 0
  | R2Action.mountCall :: tl => countMountCalls tl + 1
  | _ :: tl => countMountCalls tl

/-- A process that settles immediately with exit code 0 and the given stdout. -/
def procDone (out : String) : ProcBehavior where
  status := fun _ => "completed"
  exitCode := some 0
  stdout := out
  stderr := ""

/-- A process whose status never leaves `running` (a hung mount / stuck copy). -/
def procStuck : ProcBehavior :=
  { status := fun _ => "running" }

/-- A copy pass that settles with status `failed` and a non-zero exit code. -/
def failProc : ProcBehavior where
  status := fun _ => "failed"
  exitCode := some 23
  stdout := ""
  stderr := "rsync: some error (code 23)"

/-- Mount environment whose initial probe reports a healthy fuse mount. -/
def r2Happy : R2Env where
  hasAccessKeyId := true
  hasSecretAccessKey := true
  hasAccountId := true
  initialProbeProc := procDone "fuse.s3fs\n"
  mount1 := none
  reprobeProc := procDone ""
  mount2 := none

/-- Happy-path sync environment: healthy mount, no concurrent rsync, clean
preflight, three clean copy passes, marker written and read back. -/
def envHappy : SyncEnv where
  hasAccessKeyId := true
  hasSecretAccessKey := true
  hasAccountId := true
  r2Env := r2Happy
  processList := some []
  verifyProc := procDone "__OK__\n__WORKSPACE_LOCAL_NONEMPTY__\n__WORKSPACE_REMOTE_EMPTY__\n"
  openclawProc := procDone ""
  workspaceProc := procDone ""
  skillsProc := procDone ""
  writeProc := procDone ""
  readProc := procDone "2026-01-27T12:00:00+00:00\n"
  diagProc := procDone ""

/-- A live rsync entry as returned by `listProcesses`. -/
def rsyncProcInfo : ProcInfo where
  status := "running"
  command := "rsync -r /root/.openclaw/ /mnt/r2/openclaw/"
  id := some "proc-1"

/-- Environment in which the dedup check finds an rsync already in flight. -/
def envDedup : SyncEnv :=
  { envHappy with processList := some [rsyncProcInfo] }

/-- Environment whose preflight shows a non-empty remote workspace backup and
an empty local workspace (config marker present). -/
def envWsGuard : SyncEnv :=
  { envHappy with
    verifyProc := procDone "__OK__\n__WORKSPACE_LOCAL_EMPTY__\n__WORKSPACE_REMOTE_NONEMPTY__\n" }

/-- Environment whose preflight shows the workspace-emptiness asymmetry AND a
missing source config marker. -/
def envC6cex : SyncEnv :=
  { envHappy with
    verifyProc := procDone "__MISSING__\n__WORKSPACE_LOCAL_EMPTY__\n__WORKSPACE_REMOTE_NONEMPTY__\n" }

/-- Environment whose second copy pass (workspace) fails its ensure check. -/
def envStageFail : SyncEnv :=
  { envHappy with workspaceProc := failProc }

/-- Environment with an absent access key id. -/
def envNoCreds : SyncEnv :=
  { envHappy with hasAccessKeyId := false }

/-- A mount error message matching the "path already in use" signature. -/
def conflictMsg : String :=
  "InvalidMountConfigError: Mount path /mnt/r2 is already in use"

/-- Mount environment: nothing at the path, first mount call hits the
"already in use" race, re-probe then shows a healthy fuse mount. -/
def r2Conflict : R2Env where
  hasAccessKeyId := true
  hasSecretAccessKey := true
  hasAccountId := true
  initialProbeProc := procDone "ext4\n"
  mount1 := some conflictMsg
  reprobeProc := procDone "fuse.s3fs\n"
  mount2 := none

/-- Mount environment: initial probe hangs (unresponsive), recovery unmount,
then a successful mount. -/
def r2Unresponsive : R2Env where
  hasAccessKeyId := true
  hasSecretAccessKey := true
  hasAccountId := true
  initialProbeProc := procStuck
  mount1 := none
  reprobeProc := procDone ""
  mount2 := none

/-- Temporal property of a mount-controller trace: between every probe that
reported `unresponsive` and every later `mountBucket` call there is an
unmount attempt. -/
def unmountBetween (tr : List R2Action) : Prop :=
  ∀ j, j < tr.length → ∀ i, i < j →
    tr.getD i R2Action.mountCall = R2Action.probe PTag.unresponsive →
    tr.getD j R2Action.unmountAttempt = R2Action.mountCall →
    ∃ k, k < j ∧ i < k ∧ tr.getD k R2Action.mountCall = R2Action.unmountAttempt

instance unmountBetweenDec (tr : List R2Action) : Decidable (unmountBetween tr) := by
  unfold unmountBetween
  apply Nat.decidableBallLT

/-! ## Supporting lemmas about the wait loop -/

theorem waitFrom_all_active (status : Nat → String)
    (h : ∀ n, isActive (status n) = true) :
    ∀ fuel a, waitFrom status fuel a = a + fuel := by
  intro fuel
  induction fuel with
  | zero => intro a; rfl
  | succ m ih =>
    intro a
    simp only [waitFrom, h a, if_true]
    rw [ih (a + 1)]
    omega

theorem waitFrom_settles (status : Nat → String) :
    ∀ fuel a n, a ≤ n → n ≤ a + fuel → isActive (status n) = false →
      isActive (status (waitFrom status fuel a)) = false := by
  intro fuel
  induction fuel with
  | zero =>
    intro a n h1 h2 h3
    have hna : n = a := by omega
    subst hna
    simpa [waitFrom] using h3
  | succ m ih =>
    intro a n h1 h2 h3
    cases hA : isActive (status a) with
    | true =>
      have hna : n ≠ a := by
        intro e
        rw [e] at h3
        rw [h3] at hA
        cases hA
      simp only [waitFrom, hA, if_true]
      exact ih (a + 1) n (by omega) (by omega) h3
    | false =>
      simp only [waitFrom, hA, Bool.false_eq_true, if_false]

theorem waitForProcessT_eq (status : Nat → String) (timeoutMs pollIntervalMs : Nat) :
    waitForProcessT status timeoutMs pollIntervalMs =
      if isActive (status (waitExitT status timeoutMs pollIntervalMs)) then
        (Except.error (timeoutMessage timeoutMs
            (status (waitExitT status timeoutMs pollIntervalMs))),
          waitExitT status timeoutMs pollIntervalMs)
      else (Except.ok (), waitExitT status timeoutMs pollIntervalMs) := rfl

theorem timeout_le_attempts_mul (t p : Nat) (hp : 0 < p) :
    t ≤ waitMaxAttempts t p * p := by
  rcases Nat.eq_zero_or_pos t with h0 | h0
  · subst h0
    exact Nat.zero_le _
  · have key : waitMaxAttempts t p = (t - 1) / p + 1 := by
      unfold waitMaxAttempts
      have he : t + p - 1 = (t - 1) + p := by omega
      rw [he, Nat.add_div_right _ hp]
    rw [key]
    have h3 : t - 1 < ((t - 1) / p + 1) * p :=
      (Nat.div_lt_iff_lt_mul hp).mp (Nat.lt_succ_self _)
    exact Nat.le_of_pred_lt h3

/-- C4: for a handle whose status never leaves the active set, the wait, with
positive timeout and poll interval, fails with the timeout error carrying the
last observed status, after exactly `waitMaxAttempts` poll sleeps, whose total
duration covers `timeoutMs` (so it never fails earlier and never resolves);
and whenever the status is observed outside {starting, running} within the
attempt budget, the wait resolves with no value. -/
theorem waitForProcess_timeout_spec (status : Nat → String) (timeoutMs pollIntervalMs : Nat)
    (ht : 0 < timeoutMs) (hp : 0 < pollIntervalMs) :
    ((∀ n, isActive (status n) = true) →
      waitForProcessT status timeoutMs pollIntervalMs =
        (Except.error (timeoutMessage timeoutMs
            (status (waitMaxAttempts timeoutMs pollIntervalMs))),
          waitMaxAttempts timeoutMs pollIntervalMs) ∧
      timeoutMs ≤ waitMaxAttempts timeoutMs pollIntervalMs * pollIntervalMs)
    ∧ (∀ n, n ≤ waitMaxAttempts timeoutMs pollIntervalMs → isActive (status n) = false →
        waitForProcess status timeoutMs pollIntervalMs = Except.ok ()) := by
  constructor
  · intro hact
    constructor
    · have hx : waitExitT status timeoutMs pollIntervalMs =
          waitMaxAttempts timeoutMs pollIntervalMs := by
        unfold waitExitT
        rw [waitFrom_all_active status hact _ 0, Nat.zero_add]
      rw [waitForProcessT_eq, hx, hact]
      simp
    · exact timeout_le_attempts_mul _ _ hp
  · intro n hn hs
    have hf : isActive (status (waitExitT status timeoutMs pollIntervalMs)) = false := by
      unfold waitExitT
      exact waitFrom_settles status (waitMaxAttempts timeoutMs pollIntervalMs) 0 n
        (Nat.zero_le _) (by omega) hs
    unfold waitForProcess
    rw [waitForProcessT_eq, hf]
    simp

theorem waitForProcess_timeout_spec_witness :
    waitForProcessT (fun _ => "running") 1000 500 =
      (Except.error "Process timed out after 1000ms (status=running)", 2) ∧
    (1000 : Nat) ≤ 2 * 500 := by
  have h := (waitForProcess_timeout_spec (fun _ => "running") 1000 500
    (by decide) (by decide)).1 (fun _ => rfl)
  exact ⟨h.1, h.2⟩

/-- C10: a handle already settled (status outside {starting, running}) at the
first observation makes the wait resolve immediately, with zero poll sleeps
and no thrown timeout, for every positive timeout and every poll interval. -/
theorem waitForProcess_already_settled (status : Nat → String)
    (timeoutMs pollIntervalMs : Nat) (ht : 0 < timeoutMs)
    (h : isActive (status 0) = false) :
    waitForProcessT status timeoutMs pollIntervalMs = (Except.ok (), 0) := by
  have hz : waitExitT status timeoutMs pollIntervalMs = 0 := by
    unfold waitExitT
    cases hA : waitMaxAttempts timeoutMs pollIntervalMs with
    | zero => rfl
    | succ m => simp [waitFrom, h]
  rw [waitForProcessT_eq, hz, h]
  simp

theorem waitForProcess_already_settled_witness :
    waitForProcessT (fun _ => "completed") 1000 7 = (Except.ok (), 0) :=
  waitForProcess_already_settled (fun _ => "completed") 1000 7 (by decide) rfl

/-- C5: the probe classifies every outcome: a timed-out wait is
`unresponsive`; otherwise an empty or `__ERR__` first token is `not_mounted`,
a token beginning with `fuse` is `mounted` carrying that token, and any other
token is `not_mounted` carrying that token. -/
theorem probeMount_classifies (p : ProcBehavior) :
    (probeTimedOut p = true → probeMount p = MountProbe.unresponsive)
    ∧ (probeTimedOut p = false →
        (firstToken p.stdout = "" ∨ firstToken p.stdout = "__ERR__" →
          probeMount p = MountProbe.not_mounted "__ERR__")
        ∧ (firstToken p.stdout ≠ "" → firstToken p.stdout ≠ "__ERR__" →
            strStartsWith (firstToken p.stdout) "fuse" = true →
            probeMount p = MountProbe.mounted (firstToken p.stdout))
        ∧ (firstToken p.stdout ≠ "" → firstToken p.stdout ≠ "__ERR__" →
            strStartsWith (firstToken p.stdout) "fuse" = false →
            probeMount p = MountProbe.not_mounted (firstToken p.stdout))) := by
  unfold probeMount probeTimedOut
  cases hw : probeWait p with
  | error e =>
    constructor
    · intro _
      rfl
    · intro hfalse
      simp at hfalse
  | ok u =>
    constructor
    · intro htrue
      simp at htrue
    · intro _
      refine ⟨?_, ?_, ?_⟩
      · rintro (he | he) <;> simp [he, jsOr]
      · intro h1 h2 h3
        simp [h1, h2, h3]
      · intro h1 h2 h3
        simp [h1, h2, h3]

theorem probeMount_classifies_witness :
    probeMount (procDone "fuse.s3fs\n") = MountProbe.mounted "fuse.s3fs" := by
  have h := ((probeMount_classifies (procDone "fuse.s3fs\n")).2 rfl).2.1
    (by decide) (by decide) (by decide)
  simpa using h

/-! ## Mount controller claims -/

/-- C8: when the initial probe reports a mounted (fuse-family) state, the
controller returns true immediately, with no `mountBucket` call and no
unmount attempt. -/
theorem mountR2Storage_already_mounted (env : R2Env)
    (hc : r2CredsOk env = true)
    (hm : (probeMount env.initialProbeProc).tag = PTag.mounted) :
    mountR2Storage env = (true, [R2Action.probe PTag.mounted])
    ∧ R2Action.mountCall ∉ (mountR2Storage env).2
    ∧ R2Action.unmountAttempt ∉ (mountR2Storage env).2 := by
  rcases hP : probeMount env.initialProbeProc with fs | fs | _
  · have he : mountR2Storage env = (true, [R2Action.probe PTag.mounted]) := by
      simp [mountR2Storage, hc, hP]
    refine ⟨he, ?_, ?_⟩ <;> simp [he]
  · rw [hP] at hm
    simp [MountProbe.tag] at hm
  · rw [hP] at hm
    simp [MountProbe.tag] at hm

theorem mountR2Storage_already_mounted_witness :
    mountR2Storage r2Happy = (true, [R2Action.probe PTag.mounted]) :=
  (mountR2Storage_already_mounted r2Happy rfl (by decide)).1

/-- C3: after a mount failure whose message matches the "path already in use"
signature, the controller re-probes: a mounted re-probe yields true with no
second mount call; an unresponsive re-probe performs the lazy-unmount
recovery and retries exactly once — the trace ends with the unresponsive
re-probe, an unmount attempt, then the retry mount call, with exactly one
mount call before them — returning true on retry success and false on a
second failure; a not-mounted re-probe yields false with no retry; a
non-conflict failure yields false with no retry. -/
theorem mountR2Storage_conflict_spec (env : R2Env) (msg : String)
    (hc : r2CredsOk env = true)
    (hnm : (probeMount env.initialProbeProc).tag ≠ PTag.mounted)
    (hm1 : env.mount1 = some msg) :
    (isMountPathInUseError msg = true →
      ((probeMount env.reprobeProc).tag = PTag.mounted →
        (mountR2Storage env).1 = true ∧ countMountCalls (mountR2Storage env).2 = 1)
      ∧ ((probeMount env.reprobeProc).tag = PTag.unresponsive →
          countMountCalls (mountR2Storage env).2 = 2
          ∧ (∃ pre, (mountR2Storage env).2 =
                pre ++ [R2Action.probe PTag.unresponsive, R2Action.unmountAttempt,
                  R2Action.mountCall]
              ∧ countMountCalls pre = 1)
          ∧ (env.mount2 = none → (mountR2Storage env).1 = true)
          ∧ (∀ m2, env.mount2 = some m2 → (mountR2Storage env).1 = false))
      ∧ ((probeMount env.reprobeProc).tag = PTag.notMounted →
          (mountR2Storage env).1 = false ∧ countMountCalls (mountR2Storage env).2 = 1))
    ∧ (isMountPathInUseError msg = false →
        (mountR2Storage env).1 = false ∧ countMountCalls (mountR2Storage env).2 = 1) := by
  rcases hP : probeMount env.initialProbeProc with fs | fs | _
  · rw [hP] at hnm
    simp [MountProbe.tag] at hnm
  · -- initial probe saw another filesystem at the path
    constructor
    · intro hconf
      refine ⟨?_, ?_, ?_⟩
      · intro hRm
        rcases hR : probeMount env.reprobeProc with gs | gs | _
        · simp [mountR2Storage, hc, hP, hm1, hconf, hR, MountProbe.tag, countMountCalls]
        · rw [hR] at hRm
          simp [MountProbe.tag] at hRm
        · rw [hR] at hRm
          simp [MountProbe.tag] at hRm
      · intro hRu
        rcases hR : probeMount env.reprobeProc with gs | gs | _
        · rw [hR] at hRu
          simp [MountProbe.tag] at hRu
        · rw [hR] at hRu
          simp [MountProbe.tag] at hRu
        · cases hm2 : env.mount2 with
          | none =>
            refine ⟨?_, ⟨[R2Action.probe PTag.notMounted, R2Action.mountCall], ?_, ?_⟩,
              fun _ => ?_, fun m2 h2 => Option.noConfusion h2⟩
            · simp [mountR2Storage, hc, hP, hm1, hconf, hR, hm2, MountProbe.tag, countMountCalls]
            · simp [mountR2Storage, hc, hP, hm1, hconf, hR, hm2, MountProbe.tag]
            · decide
            · simp [mountR2Storage, hc, hP, hm1, hconf, hR, hm2, MountProbe.tag]
          | some m2x =>
            refine ⟨?_, ⟨[R2Action.probe PTag.notMounted, R2Action.mountCall], ?_, ?_⟩,
              fun h2 => Option.noConfusion h2, fun m2 h2 => ?_⟩
            · simp [mountR2Storage, hc, hP, hm1, hconf, hR, hm2, MountProbe.tag, countMountCalls]
            · simp [mountR2Storage, hc, hP, hm1, hconf, hR, hm2, MountProbe.tag]
            · decide
            · simp [mountR2Storage, hc, hP, hm1, hconf, hR, hm2, MountProbe.tag]
      · intro hRn
        rcases hR : probeMount env.reprobeProc with gs | gs | _
        · rw [hR] at hRn
          simp [MountProbe.tag] at hRn
        · simp [mountR2Storage, hc, hP, hm1, hconf, hR, MountProbe.tag, countMountCalls]
        · rw [hR] at hRn
          simp [MountProbe.tag] at hRn
    · intro hconf
      simp [mountR2Storage, hc, hP, hm1, hconf, MountProbe.tag, countMountCalls]
  · -- initial probe found the mount unresponsive
    constructor
    · intro hconf
      refine ⟨?_, ?_, ?_⟩
      · intro hRm
        rcases hR : probeMount env.reprobeProc with gs | gs | _
        · simp [mountR2Storage, hc, hP, hm1, hconf, hR, MountProbe.tag, countMountCalls]
        · rw [hR] at hRm
          simp [MountProbe.tag] at hRm
        · rw [hR] at hRm
          simp [MountProbe.tag] at hRm
      · intro hRu
        rcases hR : probeMount env.reprobeProc with gs | gs | _
        · rw [hR] at hRu
          simp [MountProbe.tag] at hRu
        · rw [hR] at hRu
          simp [MountProbe.tag] at hRu
        · cases hm2 : env.mount2 with
          | none =>
            refine ⟨?_, ⟨[R2Action.probe PTag.unresponsive, R2Action.unmountAttempt,
                R2Action.mountCall], ?_, ?_⟩,
              fun _ => ?_, fun m2 h2 => Option.noConfusion h2⟩
            · simp [mountR2Storage, hc, hP, hm1, hconf, hR, hm2, MountProbe.tag, countMountCalls]
            · simp [mountR2Storage, hc, hP, hm1, hconf, hR, hm2, MountProbe.tag]
            · decide
            · simp [mountR2Storage, hc, hP, hm1, hconf, hR, hm2, MountProbe.tag]
          | some m2x =>
            refine ⟨?_, ⟨[R2Action.probe PTag.unresponsive, R2Action.unmountAttempt,
                R2Action.mountCall], ?_, ?_⟩,
              fun h2 => Option.noConfusion h2, fun m2 h2 => ?_⟩
            · simp [mountR2Storage, hc, hP, hm1, hconf, hR, hm2, MountProbe.tag, countMountCalls]
            · simp [mountR2Storage, hc, hP, hm1, hconf, hR, hm2, MountProbe.tag]
            · decide
            · simp [mountR2Storage, hc, hP, hm1, hconf, hR, hm2, MountProbe.tag]
      · intro hRn
        rcases hR : probeMount env.reprobeProc with gs | gs | _
        · rw [hR] at hRn
          simp [MountProbe.tag] at hRn
        · simp [mountR2Storage, hc, hP, hm1, hconf, hR, MountProbe.tag, countMountCalls]
        · rw [hR] at hRn
          simp [MountProbe.tag] at hRn
    · intro hconf
      simp [mountR2Storage, hc, hP, hm1, hconf, MountProbe.tag, countMountCalls]

theorem mountR2Storage_conflict_spec_witness :
    (mountR2Storage r2Conflict).1 = true ∧
    countMountCalls (mountR2Storage r2Conflict).2 = 1 :=
  ((mountR2Storage_conflict_spec r2Conflict conflictMsg rfl (by decide) rfl).1
    (by decide)).1 (by decide)

/-- C9: in every execution of the mount controller, between any probe that
reported `unresponsive` and any later `mountBucket` call there is a lazy
unmount attempt. -/
theorem mountR2Storage_unmount_before_mount (env : R2Env) :
    unmountBetween (mountR2Storage env).2 := by
  cases hc : r2CredsOk env with
  | false =>
    have hE : (mountR2Storage env).2 = [] := by
      simp [mountR2Storage, hc]
    rw [hE]
    decide
  | true =>
    rcases hP : probeMount env.initialProbeProc with fs | fs | _
    · have hE : (mountR2Storage env).2 = [R2Action.probe PTag.mounted] := by
        simp [mountR2Storage, hc, hP]
      rw [hE]
      decide
    · cases hm1 : env.mount1 with
      | none =>
        have hE : (mountR2Storage env).2 =
            [R2Action.probe PTag.notMounted, R2Action.mountCall] := by
          simp [mountR2Storage, hc, hP, hm1, MountProbe.tag]
        rw [hE]
        decide
      | some msg =>
        cases hconf : isMountPathInUseError msg with
        | false =>
          have hE : (mountR2Storage env).2 =
              [R2Action.probe PTag.notMounted, R2Action.mountCall] := by
            simp [mountR2Storage, hc, hP, hm1, hconf, MountProbe.tag]
          rw [hE]
          decide
        | true =>
          rcases hR : probeMount env.reprobeProc with gs | gs | _
          · have hE : (mountR2Storage env).2 =
                [R2Action.probe PTag.notMounted, R2Action.mountCall,
                 R2Action.probe PTag.mounted] := by
              simp [mountR2Storage, hc, hP, hm1, hconf, hR, MountProbe.tag]
            rw [hE]
            decide
          · have hE : (mountR2Storage env).2 =
                [R2Action.probe PTag.notMounted, R2Action.mountCall,
                 R2Action.probe PTag.notMounted] := by
              simp [mountR2Storage, hc, hP, hm1, hconf, hR, MountProbe.tag]
            rw [hE]
            decide
          · have hE : (mountR2Storage env).2 =
                [R2Action.probe PTag.notMounted, R2Action.mountCall,
                 R2Action.probe PTag.unresponsive, R2Action.unmountAttempt,
                 R2Action.mountCall] := by
              cases hm2 : env.mount2 <;>
                simp [mountR2Storage, hc, hP, hm1, hconf, hR, hm2, MountProbe.tag]
            rw [hE]
            decide
    · cases hm1 : env.mount1 with
      | none =>
        have hE : (mountR2Storage env).2 =
            [R2Action.probe PTag.unresponsive, R2Action.unmountAttempt,
             R2Action.mountCall] := by
          simp [mountR2Storage, hc, hP, hm1, MountProbe.tag]
        rw [hE]
        decide
      | some msg =>
        cases hconf : isMountPathInUseError msg with
        | false =>
          have hE : (mountR2Storage env).2 =
              [R2Action.probe PTag.unresponsive, R2Action.unmountAttempt,
               R2Action.mountCall] := by
            simp [mountR2Storage, hc, hP, hm1, hconf, MountProbe.tag]
          rw [hE]
          decide
        | true =>
          rcases hR : probeMount env.reprobeProc with gs | gs | _
          · have hE : (mountR2Storage env).2 =
                [R2Action.probe PTag.unresponsive, R2Action.unmountAttempt,
                 R2Action.mountCall, R2Action.probe PTag.mounted] := by
              simp [mountR2Storage, hc, hP, hm1, hconf, hR, MountProbe.tag]
            rw [hE]
            decide
          · have hE : (mountR2Storage env).2 =
                [R2Action.probe PTag.unresponsive, R2Action.unmountAttempt,
                 R2Action.mountCall, R2Action.probe PTag.notMounted] := by
              simp [mountR2Storage, hc, hP, hm1, hconf, hR, MountProbe.tag]
            rw [hE]
            decide
          · have hE : (mountR2Storage env).2 =
                [R2Action.probe PTag.unresponsive, R2Action.unmountAttempt,
                 R2Action.mountCall, R2Action.probe PTag.unresponsive,
                 R2Action.unmountAttempt, R2Action.mountCall] := by
              cases hm2 : env.mount2 <;>
                simp [mountR2Storage, hc, hP, hm1, hconf, hR, hm2, MountProbe.tag]
            rw [hE]
            decide

theorem mountR2Storage_unmount_before_mount_witness :
    ∃ k, k < 2 ∧ 0 < k ∧
      (mountR2Storage r2Unresponsive).2.getD k R2Action.mountCall =
        R2Action.unmountAttempt :=
  mountR2Storage_unmount_before_mount r2Unresponsive 2 (by decide) 0 (by decide)
    (by decide) (by decide)

/-! ## Supporting lemmas about the sync orchestrator -/

theorem ensureRsyncSuccess_some (p : ProcBehavior) (w : String) (r : SyncResult)
    (h : ensureRsyncSuccess p w = some r) :
    r.success = false ∧ r.error = some "Sync failed" := by
  unfold ensureRsyncSuccess at h
  by_cases hf : rsyncFailCond p = true
  · rw [if_pos hf] at h
    have hr := Option.some_inj.mp h
    rw [← hr]
    exact ⟨rfl, rfl⟩
  · rw [if_neg hf] at h
    exact Option.noConfusion h

theorem ensureRsyncSuccess_none_iff (p : ProcBehavior) (w : String) :
    ensureRsyncSuccess p w = none ↔ rsyncFailCond p = false := by
  unfold ensureRsyncSuccess
  cases h : rsyncFailCond p <;> simp [h]

theorem stageSeq_append (l1 l2 : List SyncEv) :
    stageSeq (l1 ++ l2) = stageSeq l1 ++ stageSeq l2 := by
  unfold stageSeq
  exact List.filterMap_append l1 l2 stageEvIdx

theorem stageSeq_r2map (l : List R2Action) : stageSeq (l.map SyncEv.r2) = [] := by
  induction l with
  | nil => rfl
  | cons a tl ih =>
    simp [stageSeq, List.filterMap_cons, stageEvIdx]

theorem stageSeq_preTrace (env : SyncEnv) : stageSeq (preTrace env) = [] := by
  unfold preTrace
  rw [stageSeq_append, stageSeq_r2map]
  rfl

theorem start_not_mem_r2map (l : List R2Action) (k : ProcKind) :
    SyncEv.start k ∉ l.map SyncEv.r2 := by
  intro h
  rcases List.mem_map.mp h with ⟨a, _, ha⟩
  exact SyncEv.noConfusion ha

theorem start_not_mem_preTrace (env : SyncEnv) (k : ProcKind)
    (hk : k ≠ ProcKind.verify) : SyncEv.start k ∉ preTrace env := by
  unfold preTrace
  intro h
  rcases List.mem_append.mp h with h1 | h1
  · exact start_not_mem_r2map _ _ h1
  · rcases List.mem_cons.mp h1 with h2 | h2
    · exact SyncEv.noConfusion h2
    · have h3 := List.mem_singleton.mp h2
      exact hk (SyncEv.start.inj h3)

/-- Success of the replication / marker phase implies the marker write and
read-back happened, the read-back value matched the date shape, and it is the
reported `lastSync`. -/
theorem runStages_success (env : SyncEnv)
    (hs : (runStages env).1.success = true) :
    SyncEv.start ProcKind.writeMarker ∈ (runStages env).2
    ∧ SyncEv.start ProcKind.readMarker ∈ (runStages env).2
    ∧ isDateLike (jsTrim env.readProc.stdout) = true
    ∧ (runStages env).1.lastSync = some (jsTrim env.readProc.stdout) := by
  rcases hw1 : rsyncWait env.openclawProc with m1 | u1
  · have hE : (runStages env).1 = syncErrorResult m1 := by simp [runStages, hw1]
    rw [hE] at hs
    simp [syncErrorResult] at hs
  rcases he1 : ensureRsyncSuccess env.openclawProc "openclaw" with _ | r1
  case some =>
    have hE : (runStages env).1 = r1 := by simp [runStages, hw1, he1]
    rw [hE] at hs
    rw [(ensureRsyncSuccess_some _ _ _ he1).1] at hs
    exact Bool.noConfusion hs
  rcases hw2 : rsyncWait env.workspaceProc with m2 | u2
  · have hE : (runStages env).1 = syncErrorResult m2 := by simp [runStages, hw1, he1, hw2]
    rw [hE] at hs
    simp [syncErrorResult] at hs
  rcases he2 : ensureRsyncSuccess env.workspaceProc "workspace" with _ | r2
  case some =>
    have hE : (runStages env).1 = r2 := by simp [runStages, hw1, he1, hw2, he2]
    rw [hE] at hs
    rw [(ensureRsyncSuccess_some _ _ _ he2).1] at hs
    exact Bool.noConfusion hs
  rcases hw3 : rsyncWait env.skillsProc with m3 | u3
  · have hE : (runStages env).1 = syncErrorResult m3 := by
      simp [runStages, hw1, he1, hw2, he2, hw3]
    rw [hE] at hs
    simp [syncErrorResult] at hs
  rcases he3 : ensureRsyncSuccess env.skillsProc "skills" with _ | r3
  case some =>
    have hE : (runStages env).1 = r3 := by simp [runStages, hw1, he1, hw2, he2, hw3, he3]
    rw [hE] at hs
    rw [(ensureRsyncSuccess_some _ _ _ he3).1] at hs
    exact Bool.noConfusion hs
  rcases hw4 : markerWait env.writeProc with m4 | u4
  · have hE : (runStages env).1 = syncErrorResult m4 := by
      simp [runStages, hw1, he1, hw2, he2, hw3, he3, hw4]
    rw [hE] at hs
    simp [syncErrorResult] at hs
  rcases hw5 : markerWait env.readProc with m5 | u5
  · have hE : (runStages env).1 = syncErrorResult m5 := by
      simp [runStages, hw1, he1, hw2, he2, hw3, he3, hw4, hw5]
    rw [hE] at hs
    simp [syncErrorResult] at hs
  cases hfin : (!(jsTrim env.readProc.stdout == "") &&
      !(jsTrim env.readProc.stdout == "__MISSING__")) &&
      isDateLike (jsTrim env.readProc.stdout) with
  | false =>
    have hE : (runStages env).1 =
        { success := false, error := some "Sync failed",
          details := some (markerFailDetails env) } := by
      simp [runStages, hw1, he1, hw2, he2, hw3, he3, hw4, hw5, hfin]
    rw [hE] at hs
    exact Bool.noConfusion hs
  | true =>
    have hE : runStages env =
        ({ success := true, lastSync := some (jsTrim env.readProc.stdout) },
         [SyncEv.start (ProcKind.rsync SyncStage.openclaw),
          SyncEv.start (ProcKind.rsync SyncStage.workspace),
          SyncEv.start (ProcKind.rsync SyncStage.skills), SyncEv.start ProcKind.writeMarker,
          SyncEv.start ProcKind.readMarker]) := by
      simp [runStages, hw1, he1, hw2, he2, hw3, he3, hw4, hw5, hfin]
    rw [hE]
    have hdate : isDateLike (jsTrim env.readProc.stdout) = true := by
      rw [Bool.and_eq_true] at hfin
      exact hfin.2
    exact ⟨by simp, by simp, hdate, rfl⟩

/-! ## Sync orchestrator claims -/

/-- C7: with any required credential absent, the orchestrator returns
`success = false` with error `R2 storage is not configured` and an empty
event trace — no external process is started and no mount call is made. -/
theorem syncToR2_not_configured (env : SyncEnv)
    (h : syncCredsOk env = false) :
    syncToR2 env =
      ({ success := false, error := some "R2 storage is not configured" }, []) := by
  unfold syncToR2
  rw [h]
  rfl

theorem syncToR2_not_configured_witness :
    syncToR2 envNoCreds =
      ({ success := false, error := some "R2 storage is not configured" }, []) :=
  syncToR2_not_configured envNoCreds rfl

/-- C1 counterexample: when the dedup check finds an active rsync, the
orchestrator returns `success = true` on the strength of that process's
status alone — no marker-read process is ever started and no date-shape
verification happens, refuting the claim that success is only ever returned
after the marker read-back. -/
theorem syncToR2_dedup_success_without_marker :
    (syncToR2 envDedup).1.success = true
    ∧ (syncToR2 envDedup).1.details =
        some "Skipped: another rsync appears to be running (id=proc-1)."
    ∧ SyncEv.start ProcKind.readMarker ∉ (syncToR2 envDedup).2
    ∧ SyncEv.start ProcKind.writeMarker ∉ (syncToR2 envDedup).2 := by
  decide

/-- C1 (amended): outside the dedup early-exit, a `success = true` result is
only returned after the completion marker was written and read back with a
text matching the date-like prefix shape, which becomes `lastSync`. -/
theorem syncToR2_success_only_after_marker (env : SyncEnv)
    (hs : (syncToR2 env).1.success = true)
    (hd : checkForActiveRsync env.processList = none) :
    SyncEv.start ProcKind.writeMarker ∈ (syncToR2 env).2
    ∧ SyncEv.start ProcKind.readMarker ∈ (syncToR2 env).2
    ∧ isDateLike (jsTrim env.readProc.stdout) = true
    ∧ (syncToR2 env).1.lastSync = some (jsTrim env.readProc.stdout) := by
  cases hc : syncCredsOk env with
  | false =>
    have hE : (syncToR2 env).1 =
        { success := false, error := some "R2 storage is not configured" } := by
      simp [syncToR2, hc]
    rw [hE] at hs
    exact Bool.noConfusion hs
  | true =>
  cases hm : (mountR2Storage env.r2Env).1 with
  | false =>
    have hE : (syncToR2 env).1 =
        { success := false, error := some "Failed to mount R2 storage" } := by
      simp [syncToR2, hc, hm]
    rw [hE] at hs
    exact Bool.noConfusion hs
  | true =>
  cases h1 : strContains env.verifyProc.stdout "__MISSING__" with
  | true =>
    have hE : (syncToR2 env).1 = missingConfigResult := by
      simp [syncToR2, hc, hm, hd, h1]
    rw [hE] at hs
    exact Bool.noConfusion hs
  | false =>
  cases h2 : strContains env.verifyProc.stdout "__WORKSPACE_REMOTE_NONEMPTY__" &&
      strContains env.verifyProc.stdout "__WORKSPACE_LOCAL_EMPTY__" with
  | true =>
    have hE : (syncToR2 env).1 = workspaceEmptyResult := by
      simp [syncToR2, hc, hm, hd, h1, h2]
    rw [hE] at hs
    exact Bool.noConfusion hs
  | false =>
  cases h3 : strContains env.verifyProc.stdout "__OK__" with
  | false =>
    have hE : (syncToR2 env).1 = verifyTimeoutResult env := by
      simp [syncToR2, hc, hm, hd, h1, h2, h3]
    rw [hE] at hs
    simp [verifyTimeoutResult] at hs
  | true =>
    have hE : syncToR2 env = ((runStages env).1, preTrace env ++ (runStages env).2) := by
      simp [syncToR2, hc, hm, hd, h1, h2, h3]
    rw [hE] at hs
    have hr := runStages_success env hs
    rw [hE]
    exact ⟨List.mem_append.mpr (Or.inr hr.1), List.mem_append.mpr (Or.inr hr.2.1),
      hr.2.2.1, hr.2.2.2⟩

theorem syncToR2_success_only_after_marker_witness :
    SyncEv.start ProcKind.writeMarker ∈ (syncToR2 envHappy).2
    ∧ SyncEv.start ProcKind.readMarker ∈ (syncToR2 envHappy).2
    ∧ isDateLike (jsTrim envHappy.readProc.stdout) = true
    ∧ (syncToR2 envHappy).1.lastSync = some (jsTrim envHappy.readProc.stdout) :=
  syncToR2_success_only_after_marker envHappy (by decide) rfl

/-- C6 counterexample: a preflight output showing the workspace-emptiness
asymmetry AND the missing-config sentinel aborts with the missing-config
error, not the "local workspace appears empty" one, refuting the claim as
stated (the config-marker check takes precedence). -/
theorem syncToR2_workspace_guard_counterexample :
    strContains envC6cex.verifyProc.stdout "__WORKSPACE_REMOTE_NONEMPTY__" = true
    ∧ strContains envC6cex.verifyProc.stdout "__WORKSPACE_LOCAL_EMPTY__" = true
    ∧ (syncToR2 envC6cex).1.success = false
    ∧ (syncToR2 envC6cex).1.error = some "Sync aborted: source missing openclaw.json"
    ∧ strContains ((syncToR2 envC6cex).1.error.getD "") "local workspace appears empty"
        = false := by
  decide

/-- C6 (amended): when the run reaches preflight verification and its output
shows the remote workspace backup non-empty and the local workspace empty,
and does not show the missing-config sentinel, the orchestrator aborts with
the `local workspace appears empty` error and starts zero rsync processes. -/
theorem syncToR2_workspace_guard (env : SyncEnv)
    (hc : syncCredsOk env = true)
    (hm : (mountR2Storage env.r2Env).1 = true)
    (hd : checkForActiveRsync env.processList = none)
    (hmiss : strContains env.verifyProc.stdout "__MISSING__" = false)
    (hr : strContains env.verifyProc.stdout "__WORKSPACE_REMOTE_NONEMPTY__" = true)
    (hl : strContains env.verifyProc.stdout "__WORKSPACE_LOCAL_EMPTY__" = true) :
    (syncToR2 env).1 = workspaceEmptyResult
    ∧ strContains ((syncToR2 env).1.error.getD "") "local workspace appears empty" = true
    ∧ ∀ s, SyncEv.start (ProcKind.rsync s) ∉ (syncToR2 env).2 := by
  have hE : syncToR2 env = (workspaceEmptyResult, preTrace env) := by
    simp [syncToR2, hc, hm, hd, hmiss, hr, hl]
  refine ⟨by rw [hE], ?_, ?_⟩
  · rw [hE]
    show strContains (workspaceEmptyResult.error.getD "") "local workspace appears empty" = true
    decide
  · intro s
    rw [hE]
    exact start_not_mem_preTrace env (ProcKind.rsync s) (fun h => ProcKind.noConfusion h)

theorem syncToR2_workspace_guard_witness :
    (syncToR2 envWsGuard).1 = workspaceEmptyResult
    ∧ strContains ((syncToR2 envWsGuard).1.error.getD "") "local workspace appears empty"
        = true := by
  have h := syncToR2_workspace_guard envWsGuard rfl (by decide) rfl (by decide)
    (by decide) (by decide)
  exact ⟨h.1, h.2.1⟩

theorem wait_contra {p : ProcBehavior} {m : String}
    (hw : rsyncWait p = Except.error m) (hok : rsyncWait p = Except.ok ()) : False := by
  rw [hw] at hok
  exact Except.noConfusion hok

theorem stage_contra {p : ProcBehavior} {w : String}
    (he : ensureRsyncSuccess p w = none) (hf : rsyncFailCond p = true) : False := by
  rw [(ensureRsyncSuccess_none_iff p w).mp he] at hf
  exact Bool.noConfusion hf

/-- The replication phase: stages appear in trace order as a gap-free initial
segment of openclaw, workspace, skills, marker-write; a stage start implies
the previous stage's wait settled and its ensure-success check passed; and a
fired ensure-check makes the run end in `Sync failed` with no later stage
started. -/
theorem runStages_spec (env : SyncEnv) :
    (∃ n, n ≤ 4 ∧ stageSeq (runStages env).2 = [0, 1, 2, 3].take n)
    ∧ (SyncEv.start (ProcKind.rsync SyncStage.workspace) ∈ (runStages env).2 →
        SyncEv.start (ProcKind.rsync SyncStage.openclaw) ∈ (runStages env).2 ∧
        stagePassed env SyncStage.openclaw)
    ∧ (SyncEv.start (ProcKind.rsync SyncStage.skills) ∈ (runStages env).2 →
        SyncEv.start (ProcKind.rsync SyncStage.workspace) ∈ (runStages env).2 ∧
        stagePassed env SyncStage.workspace)
    ∧ (SyncEv.start ProcKind.writeMarker ∈ (runStages env).2 →
        SyncEv.start (ProcKind.rsync SyncStage.skills) ∈ (runStages env).2 ∧
        stagePassed env SyncStage.skills)
    ∧ (∀ s, SyncEv.start (ProcKind.rsync s) ∈ (runStages env).2 →
        rsyncWait (stageProcOf env s) = Except.ok () →
        rsyncFailCond (stageProcOf env s) = true →
        (runStages env).1.success = false
        ∧ (runStages env).1.error = some "Sync failed"
        ∧ ∀ s2, stageIdx s < stageIdx s2 →
            SyncEv.start (ProcKind.rsync s2) ∉ (runStages env).2 ∧
            SyncEv.start ProcKind.writeMarker ∉ (runStages env).2) := by
  rcases hw1 : rsyncWait env.openclawProc with m1 | u1
  · -- openclaw wait timed out
    have hE2 : (runStages env).2 =
        [SyncEv.start (ProcKind.rsync SyncStage.openclaw),
         SyncEv.kill "rsync_openclaw_timeout"] := by
      simp [runStages, hw1]
    refine ⟨⟨1, by decide, by rw [hE2]; decide⟩,
      fun h => absurd (hE2 ▸ h) (by decide),
      fun h => absurd (hE2 ▸ h) (by decide),
      fun h => absurd (hE2 ▸ h) (by decide),
      fun s hmem hwok hfail => ?_⟩
    cases s with
    | openclaw => exact (wait_contra hw1 hwok).elim
    | workspace => exact absurd (hE2 ▸ hmem) (by decide)
    | skills => exact absurd (hE2 ▸ hmem) (by decide)
  rcases he1 : ensureRsyncSuccess env.openclawProc "openclaw" with _ | r1
  case some =>
    -- openclaw ensure-check fired
    have hE1 : (runStages env).1 = r1 := by simp [runStages, hw1, he1]
    have hE2 : (runStages env).2 =
        [SyncEv.start (ProcKind.rsync SyncStage.openclaw)] := by
      simp [runStages, hw1, he1]
    refine ⟨⟨1, by decide, by rw [hE2]; decide⟩,
      fun h => absurd (hE2 ▸ h) (by decide),
      fun h => absurd (hE2 ▸ h) (by decide),
      fun h => absurd (hE2 ▸ h) (by decide),
      fun s hmem hwok hfail => ?_⟩
    cases s with
    | openclaw =>
      refine ⟨by rw [hE1]; exact (ensureRsyncSuccess_some _ _ _ he1).1,
        by rw [hE1]; exact (ensureRsyncSuccess_some _ _ _ he1).2, ?_⟩
      intro s2 hlt
      cases s2 with
      | openclaw => exact absurd hlt (by decide)
      | workspace => exact ⟨by rw [hE2]; decide, by rw [hE2]; decide⟩
      | skills => exact ⟨by rw [hE2]; decide, by rw [hE2]; decide⟩
    | workspace => exact absurd (hE2 ▸ hmem) (by decide)
    | skills => exact absurd (hE2 ▸ hmem) (by decide)
  rcases hw2 : rsyncWait env.workspaceProc with m2 | u2
  · -- workspace wait timed out
    have hE2 : (runStages env).2 =
        [SyncEv.start (ProcKind.rsync SyncStage.openclaw),
         SyncEv.start (ProcKind.rsync SyncStage.workspace),
         SyncEv.kill "rsync_workspace_timeout"] := by
      simp [runStages, hw1, he1, hw2]
    refine ⟨⟨2, by decide, by rw [hE2]; decide⟩,
      fun h => ⟨by rw [hE2]; decide, hw1, he1⟩,
      fun h => absurd (hE2 ▸ h) (by decide),
      fun h => absurd (hE2 ▸ h) (by decide),
      fun s hmem hwok hfail => ?_⟩
    cases s with
    | openclaw => exact (stage_contra he1 hfail).elim
    | workspace => exact (wait_contra hw2 hwok).elim
    | skills => exact absurd (hE2 ▸ hmem) (by decide)
  rcases he2 : ensureRsyncSuccess env.workspaceProc "workspace" with _ | r2
  case some =>
    -- workspace ensure-check fired
    have hE1 : (runStages env).1 = r2 := by simp [runStages, hw1, he1, hw2, he2]
    have hE2 : (runStages env).2 =
        [SyncEv.start (ProcKind.rsync SyncStage.openclaw),
         SyncEv.start (ProcKind.rsync SyncStage.workspace)] := by
      simp [runStages, hw1, he1, hw2, he2]
    refine ⟨⟨2, by decide, by rw [hE2]; decide⟩,
      fun h => ⟨by rw [hE2]; decide, hw1, he1⟩,
      fun h => absurd (hE2 ▸ h) (by decide),
      fun h => absurd (hE2 ▸ h) (by decide),
      fun s hmem hwok hfail => ?_⟩
    cases s with
    | openclaw => exact (stage_contra he1 hfail).elim
    | workspace =>
      refine ⟨by rw [hE1]; exact (ensureRsyncSuccess_some _ _ _ he2).1,
        by rw [hE1]; exact (ensureRsyncSuccess_some _ _ _ he2).2, ?_⟩
      intro s2 hlt
      cases s2 with
      | openclaw => exact absurd hlt (by decide)
      | workspace => exact absurd hlt (by decide)
      | skills => exact ⟨by rw [hE2]; decide, by rw [hE2]; decide⟩
    | skills => exact absurd (hE2 ▸ hmem) (by decide)
  rcases hw3 : rsyncWait env.skillsProc with m3 | u3
  · -- skills wait timed out
    have hE2 : (runStages env).2 =
        [SyncEv.start (ProcKind.rsync SyncStage.openclaw),
         SyncEv.start (ProcKind.rsync SyncStage.workspace),
         SyncEv.start (ProcKind.rsync SyncStage.skills),
         SyncEv.kill "rsync_skills_timeout"] := by
      simp [runStages, hw1, he1, hw2, he2, hw3]
    refine ⟨⟨3, by decide, by rw [hE2]; decide⟩,
      fun h => ⟨by rw [hE2]; decide, hw1, he1⟩,
      fun h => ⟨by rw [hE2]; decide, hw2, he2⟩,
      fun h => absurd (hE2 ▸ h) (by decide),
      fun s hmem hwok hfail => ?_⟩
    cases s with
    | openclaw => exact (stage_contra he1 hfail).elim
    | workspace => exact (stage_contra he2 hfail).elim
    | skills => exact (wait_contra hw3 hwok).elim
  rcases he3 : ensureRsyncSuccess env.skillsProc "skills" with _ | r3
  case some =>
    -- skills ensure-check fired
    have hE1 : (runStages env).1 = r3 := by simp [runStages, hw1, he1, hw2, he2, hw3, he3]
    have hE2 : (runStages env).2 =
        [SyncEv.start (ProcKind.rsync SyncStage.openclaw),
         SyncEv.start (ProcKind.rsync SyncStage.workspace),
         SyncEv.start (ProcKind.rsync SyncStage.skills)] := by
      simp [runStages, hw1, he1, hw2, he2, hw3, he3]
    refine ⟨⟨3, by decide, by rw [hE2]; decide⟩,
      fun h => ⟨by rw [hE2]; decide, hw1, he1⟩,
      fun h => ⟨by rw [hE2]; decide, hw2, he2⟩,
      fun h => absurd (hE2 ▸ h) (by decide),
      fun s hmem hwok hfail => ?_⟩
    cases s with
    | openclaw => exact (stage_contra he1 hfail).elim
    | workspace => exact (stage_contra he2 hfail).elim
    | skills =>
      refine ⟨by rw [hE1]; exact (ensureRsyncSuccess_some _ _ _ he3).1,
        by rw [hE1]; exact (ensureRsyncSuccess_some _ _ _ he3).2, ?_⟩
      intro s2 hlt
      cases s2 <;> exact absurd hlt (by decide)
  rcases hw4 : markerWait env.writeProc with m4 | u4
  · -- marker write wait timed out
    have hE2 : (runStages env).2 =
        [SyncEv.start (ProcKind.rsync SyncStage.openclaw),
         SyncEv.start (ProcKind.rsync SyncStage.workspace),
         SyncEv.start (ProcKind.rsync SyncStage.skills),
         SyncEv.start ProcKind.writeMarker] := by
      simp [runStages, hw1, he1, hw2, he2, hw3, he3, hw4]
    refine ⟨⟨4, by decide, by rw [hE2]; decide⟩,
      fun h => ⟨by rw [hE2]; decide, hw1, he1⟩,
      fun h => ⟨by rw [hE2]; decide, hw2, he2⟩,
      fun h => ⟨by rw [hE2]; decide, hw3, he3⟩,
      fun s hmem hwok hfail => ?_⟩
    cases s with
    | openclaw => exact (stage_contra he1 hfail).elim
    | workspace => exact (stage_contra he2 hfail).elim
    | skills => exact (stage_contra he3 hfail).elim
  rcases hw5 : markerWait env.readProc with m5 | u5
  · -- marker read wait timed out
    have hE2 : (runStages env).2 =
        [SyncEv.start (ProcKind.rsync SyncStage.openclaw),
         SyncEv.start (ProcKind.rsync SyncStage.workspace),
         SyncEv.start (ProcKind.rsync SyncStage.skills),
         SyncEv.start ProcKind.writeMarker, SyncEv.start ProcKind.readMarker] := by
      simp [runStages, hw1, he1, hw2, he2, hw3, he3, hw4, hw5]
    refine ⟨⟨4, by decide, by rw [hE2]; decide⟩,
      fun h => ⟨by rw [hE2]; decide, hw1, he1⟩,
      fun h => ⟨by rw [hE2]; decide, hw2, he2⟩,
      fun h => ⟨by rw [hE2]; decide, hw3, he3⟩,
      fun s hmem hwok hfail => ?_⟩
    cases s with
    | openclaw => exact (stage_contra he1 hfail).elim
    | workspace => exact (stage_contra he2 hfail).elim
    | skills => exact (stage_contra he3 hfail).elim
  cases hfin : (!(jsTrim env.readProc.stdout == "") &&
      !(jsTrim env.readProc.stdout == "__MISSING__")) &&
      isDateLike (jsTrim env.readProc.stdout) with
  | true =>
    have hE2 : (runStages env).2 =
        [SyncEv.start (ProcKind.rsync SyncStage.openclaw),
         SyncEv.start (ProcKind.rsync SyncStage.workspace),
         SyncEv.start (ProcKind.rsync SyncStage.skills),
         SyncEv.start ProcKind.writeMarker, SyncEv.start ProcKind.readMarker] := by
      simp [runStages, hw1, he1, hw2, he2, hw3, he3, hw4, hw5, hfin]
    refine ⟨⟨4, by decide, by rw [hE2]; decide⟩,
      fun h => ⟨by rw [hE2]; decide, hw1, he1⟩,
      fun h => ⟨by rw [hE2]; decide, hw2, he2⟩,
      fun h => ⟨by rw [hE2]; decide, hw3, he3⟩,
      fun s hmem hwok hfail => ?_⟩
    cases s with
    | openclaw => exact (stage_contra he1 hfail).elim
    | workspace => exact (stage_contra he2 hfail).elim
    | skills => exact (stage_contra he3 hfail).elim
  | false =>
    have hE2 : (runStages env).2 =
        [SyncEv.start (ProcKind.rsync SyncStage.openclaw),
         SyncEv.start (ProcKind.rsync SyncStage.workspace),
         SyncEv.start (ProcKind.rsync SyncStage.skills),
         SyncEv.start ProcKind.writeMarker, SyncEv.start ProcKind.readMarker,
         SyncEv.start ProcKind.diag] := by
      simp [runStages, hw1, he1, hw2, he2, hw3, he3, hw4, hw5, hfin]
    refine ⟨⟨4, by decide, by rw [hE2]; decide⟩,
      fun h => ⟨by rw [hE2]; decide, hw1, he1⟩,
      fun h => ⟨by rw [hE2]; decide, hw2, he2⟩,
      fun h => ⟨by rw [hE2]; decide, hw3, he3⟩,
      fun s hmem hwok hfail => ?_⟩
    cases s with
    | openclaw => exact (stage_contra he1 hfail).elim
    | workspace => exact (stage_contra he2 hfail).elim
    | skills => exact (stage_contra he3 hfail).elim

theorem start_not_mem_mountList (env : SyncEnv) (k : ProcKind) :
    SyncEv.start k ∉ (mountR2Storage env.r2Env).2.map SyncEv.r2 ++ [SyncEv.listProc] := by
  intro h
  rcases List.mem_append.mp h with h1 | h1
  · exact start_not_mem_r2map _ _ h1
  · exact SyncEv.noConfusion (List.mem_singleton.mp h1)

/-- C2: the replication stages of `syncToR2` run in the fixed total order
openclaw config, workspace, skills, marker write (the trace's stage sequence
is an initial segment of 0,1,2,3); each stage start implies the previous
stage's wait settled and its ensure-success check passed; and whenever a
started copy pass settles with the ensure-check condition (status `failed`
or non-zero exit code), the orchestrator returns success `false` with error
`Sync failed` and no later copy pass (nor the marker write) is started. -/
theorem syncToR2_stage_order (env : SyncEnv) :
    (∃ n, n ≤ 4 ∧ stageSeq (syncToR2 env).2 = [0, 1, 2, 3].take n)
    ∧ (SyncEv.start (ProcKind.rsync SyncStage.workspace) ∈ (syncToR2 env).2 →
        SyncEv.start (ProcKind.rsync SyncStage.openclaw) ∈ (syncToR2 env).2 ∧
        stagePassed env SyncStage.openclaw)
    ∧ (SyncEv.start (ProcKind.rsync SyncStage.skills) ∈ (syncToR2 env).2 →
        SyncEv.start (ProcKind.rsync SyncStage.workspace) ∈ (syncToR2 env).2 ∧
        stagePassed env SyncStage.workspace)
    ∧ (SyncEv.start ProcKind.writeMarker ∈ (syncToR2 env).2 →
        SyncEv.start (ProcKind.rsync SyncStage.skills) ∈ (syncToR2 env).2 ∧
        stagePassed env SyncStage.skills)
    ∧ (∀ s, SyncEv.start (ProcKind.rsync s) ∈ (syncToR2 env).2 →
        rsyncWait (stageProcOf env s) = Except.ok () →
        rsyncFailCond (stageProcOf env s) = true →
        (syncToR2 env).1.success = false
        ∧ (syncToR2 env).1.error = some "Sync failed"
        ∧ ∀ s2, stageIdx s < stageIdx s2 →
            SyncEv.start (ProcKind.rsync s2) ∉ (syncToR2 env).2 ∧
            SyncEv.start ProcKind.writeMarker ∉ (syncToR2 env).2) := by
  cases hc : syncCredsOk env with
  | false =>
    have hE2 : (syncToR2 env).2 = [] := by simp [syncToR2, hc]
    exact ⟨⟨0, by decide, by rw [hE2]; decide⟩,
      fun h => absurd (hE2 ▸ h) (by decide),
      fun h => absurd (hE2 ▸ h) (by decide),
      fun h => absurd (hE2 ▸ h) (by decide),
      fun s hmem _ _ => absurd (hE2 ▸ hmem) (List.not_mem_nil _)⟩
  | true =>
  cases hm : (mountR2Storage env.r2Env).1 with
  | false =>
    have hE2 : (syncToR2 env).2 = (mountR2Storage env.r2Env).2.map SyncEv.r2 := by
      simp [syncToR2, hc, hm]
    exact ⟨⟨0, by decide, by rw [hE2, stageSeq_r2map]; rfl⟩,
      fun h => absurd (hE2 ▸ h) (start_not_mem_r2map _ _),
      fun h => absurd (hE2 ▸ h) (start_not_mem_r2map _ _),
      fun h => absurd (hE2 ▸ h) (start_not_mem_r2map _ _),
      fun s hmem _ _ => absurd (hE2 ▸ hmem) (start_not_mem_r2map _ _)⟩
  | true =>
  cases hdp : checkForActiveRsync env.processList with
  | some d =>
    have hE2 : (syncToR2 env).2 =
        (mountR2Storage env.r2Env).2.map SyncEv.r2 ++ [SyncEv.listProc] := by
      simp [syncToR2, hc, hm, hdp]
    exact ⟨⟨0, by decide, by rw [hE2, stageSeq_append, stageSeq_r2map]; rfl⟩,
      fun h => absurd (hE2 ▸ h) (start_not_mem_mountList _ _),
      fun h => absurd (hE2 ▸ h) (start_not_mem_mountList _ _),
      fun h => absurd (hE2 ▸ h) (start_not_mem_mountList _ _),
      fun s hmem _ _ => absurd (hE2 ▸ hmem) (start_not_mem_mountList _ _)⟩
  | none =>
  cases h1 : strContains env.verifyProc.stdout "__MISSING__" with
  | true =>
    have hE2 : (syncToR2 env).2 = preTrace env := by simp [syncToR2, hc, hm, hdp, h1]
    exact ⟨⟨0, by decide, by rw [hE2, stageSeq_preTrace]; rfl⟩,
      fun h => absurd (hE2 ▸ h)
        (start_not_mem_preTrace env _ (fun hh => ProcKind.noConfusion hh)),
      fun h => absurd (hE2 ▸ h)
        (start_not_mem_preTrace env _ (fun hh => ProcKind.noConfusion hh)),
      fun h => absurd (hE2 ▸ h)
        (start_not_mem_preTrace env _ (fun hh => ProcKind.noConfusion hh)),
      fun s hmem _ _ => absurd (hE2 ▸ hmem)
        (start_not_mem_preTrace env _ (fun hh => ProcKind.noConfusion hh))⟩
  | false =>
  cases h2 : strContains env.verifyProc.stdout "__WORKSPACE_REMOTE_NONEMPTY__" &&
      strContains env.verifyProc.stdout "__WORKSPACE_LOCAL_EMPTY__" with
  | true =>
    have hE2 : (syncToR2 env).2 = preTrace env := by simp [syncToR2, hc, hm, hdp, h1, h2]
    exact ⟨⟨0, by decide, by rw [hE2, stageSeq_preTrace]; rfl⟩,
      fun h => absurd (hE2 ▸ h)
        (start_not_mem_preTrace env _ (fun hh => ProcKind.noConfusion hh)),
      fun h => absurd (hE2 ▸ h)
        (start_not_mem_preTrace env _ (fun hh => ProcKind.noConfusion hh)),
      fun h => absurd (hE2 ▸ h)
        (start_not_mem_preTrace env _ (fun hh => ProcKind.noConfusion hh)),
      fun s hmem _ _ => absurd (hE2 ▸ hmem)
        (start_not_mem_preTrace env _ (fun hh => ProcKind.noConfusion hh))⟩
  | false =>
  cases h3 : strContains env.verifyProc.stdout "__OK__" with
  | false =>
    have hE2 : (syncToR2 env).2 = preTrace env := by
      simp [syncToR2, hc, hm, hdp, h1, h2, h3]
    exact ⟨⟨0, by decide, by rw [hE2, stageSeq_preTrace]; rfl⟩,
      fun h => absurd (hE2 ▸ h)
        (start_not_mem_preTrace env _ (fun hh => ProcKind.noConfusion hh)),
      fun h => absurd (hE2 ▸ h)
        (start_not_mem_preTrace env _ (fun hh => ProcKind.noConfusion hh)),
      fun h => absurd (hE2 ▸ h)
        (start_not_mem_preTrace env _ (fun hh => ProcKind.noConfusion hh)),
      fun s hmem _ _ => absurd (hE2 ▸ hmem)
        (start_not_mem_preTrace env _ (fun hh => ProcKind.noConfusion hh))⟩
  | true =>
    have hE1 : (syncToR2 env).1 = (runStages env).1 := by
      simp [syncToR2, hc, hm, hdp, h1, h2, h3]
    have hE2 : (syncToR2 env).2 = preTrace env ++ (runStages env).2 := by
      simp [syncToR2, hc, hm, hdp, h1, h2, h3]
    have hsp := runStages_spec env
    have toRun : ∀ k : ProcKind, k ≠ ProcKind.verify →
        SyncEv.start k ∈ (syncToR2 env).2 → SyncEv.start k ∈ (runStages env).2 := by
      intro k hk h
      rcases List.mem_append.mp (hE2 ▸ h) with hq | hq
      · exact absurd hq (start_not_mem_preTrace env k hk)
      · exact hq
    have ofRun : ∀ k : ProcKind,
        SyncEv.start k ∈ (runStages env).2 → SyncEv.start k ∈ (syncToR2 env).2 := by
      intro k h
      rw [hE2]
      exact List.mem_append.mpr (Or.inr h)
    refine ⟨?_, ?_, ?_, ?_, ?_⟩
    · obtain ⟨n, hn, hseq⟩ := hsp.1
      exact ⟨n, hn, by
        rw [hE2, stageSeq_append, stageSeq_preTrace, List.nil_append]
        exact hseq⟩
    · intro h
      obtain ⟨hm', hp⟩ := hsp.2.1 (toRun _ (fun hh => ProcKind.noConfusion hh) h)
      exact ⟨ofRun _ hm', hp⟩
    · intro h
      obtain ⟨hm', hp⟩ := hsp.2.2.1 (toRun _ (fun hh => ProcKind.noConfusion hh) h)
      exact ⟨ofRun _ hm', hp⟩
    · intro h
      obtain ⟨hm', hp⟩ := hsp.2.2.2.1 (toRun _ (fun hh => ProcKind.noConfusion hh) h)
      exact ⟨ofRun _ hm', hp⟩
    · intro s hmem hwok hfail
      obtain ⟨ha, hb, hrest⟩ := hsp.2.2.2.2 s
        (toRun _ (fun hh => ProcKind.noConfusion hh) hmem) hwok hfail
      refine ⟨by rw [hE1]; exact ha, by rw [hE1]; exact hb, ?_⟩
      intro s2 hlt
      obtain ⟨hn1, hn2⟩ := hrest s2 hlt
      constructor
      · intro hq
        exact hn1 (toRun _ (fun hh => ProcKind.noConfusion hh) hq)
      · intro hq
        exact hn2 (toRun _ (fun hh => ProcKind.noConfusion hh) hq)

theorem syncToR2_stage_order_witness :
    (syncToR2 envStageFail).1.success = false ∧
    (syncToR2 envStageFail).1.error = some "Sync failed" := by
  have h := (syncToR2_stage_order envStageFail).2.2.2.2 SyncStage.workspace
    (by decide) rfl rfl
  exact ⟨h.1, h.2.1⟩
